import Mathlib

/-!
Shallow embedding of `src/app/src/main/python/haven_reticulum.py` (the Haven
Reticulum bridge module) together with theorems settling the frozen claims
about it.  Python dicts become insertion-ordered association lists, byte
strings become `List Nat`, module-level mutable globals become explicit state
records threaded through the functions, callback-driven waiting becomes an
explicit event trace consumed by the polling loop, and Python exceptions
become `Except` values.  External collaborators (RNS transport primitives,
the rnsh protocol library, the filesystem and the clock) enter as explicit
parameters.
-/

namespace Haven

/-- String constants used by the source and by concrete instances. -/
def sidebandHosts : List String := ["127.0.0.1", "localhost", "::1"]

def sbHost : String := "127.0.0.1"

def gwHost : String := "10.0.0.5"

def hexA : String := "aa"

def hexB : String := "bb"

def boomMsg : String := "boom"

def errText : String := "err"

/-- Lookup in an insertion-ordered association list: `dict.get(key)`. -/
def dictLookup {κ α : Type} [DecidableEq κ] : List (κ × α) → κ → Option α
  | [], _ => none
  | (k, w) :: rest, key => if k = key then some w else dictLookup rest key

/-- `dict[key] = value`: an existing key keeps its position (CPython dict
semantics); a fresh key is appended at the end. -/
def dictUpsert {κ α : Type} [DecidableEq κ] : List (κ × α) → κ → α → List (κ × α)
  | [], key, v => [(key, v)]
  | (k, w) :: rest, key, v =>
      if k = key then (k, v) :: rest else (k, w) :: dictUpsert rest key v

/-- Value stored in the `_announced` dict for one destination
(`{"hops": int, "timestamp": float}` in the source). -/
structure AnnInfo where
  hops : Int
  timestamp : Nat
deriving DecidableEq

/-- The `_announced` module global: `dest_hash_hex -> AnnInfo`. -/
abbrev AnnCache := List (String × AnnInfo)

/-- One announce event as seen by `_RnshAnnounceHandler.received_announce`:
the destination hex hash, the hop count found in `RNS.Transport.path_table`
at the moment of receipt (`none` when the table has no entry), and the
current wall-clock time. -/
structure Announce where
  destHex : String
  pathHops : Option Int
  now : Nat
deriving DecidableEq

/-- The `AnnInfo` that `received_announce` stores for an announce:
`hops = -1` when the path table has no entry, else the table's hop count;
`timestamp = time.time()`. -/
def encodeAnnounce (a : Announce) : AnnInfo :=
  { hops := match a.pathHops with
            | some h => h
            | none => -1,
    timestamp := a.now }

/-- `_RnshAnnounceHandler.received_announce`: upsert the destination into
`_announced` with the current hop count and timestamp. -/
def received_announce (cache : AnnCache) (a : Announce) : AnnCache :=
  dictUpsert cache a.destHex (encodeAnnounce a)

/-- Fold a whole trace of announces into the cache, starting empty. -/
def runAnnounces (evs : List Announce) : AnnCache :=
  evs.foldl received_announce []

/-- The sort key used by `get_discovered_destinations`:
`d["hops"] if d["hops"] >= 0 else 999`. -/
def sortKey (hops : Int) : Int := if 0 ≤ hops then hops else 999

/-- The comparison `results.sort(key=...)` sorts by. -/
def hopsLe (a b : String × Int) : Prop := sortKey a.2 ≤ sortKey b.2

instance : DecidableRel hopsLe := fun a b =>
  inferInstanceAs (Decidable (sortKey a.2 ≤ sortKey b.2))

instance : IsTotal (String × Int) hopsLe :=
  ⟨fun a b => Int.le_total (sortKey a.2) (sortKey b.2)⟩

instance : IsTrans (String × Int) hopsLe :=
  ⟨fun _ _ _ hab hbc => Int.le_trans hab hbc⟩

/-- `get_discovered_destinations`: build `{"hash": hex, "hops": hops}`
records from `_announced`, then `results.sort(key=...)`.  Python's `sort`
is a stable sort by key; a stable sort's output is unique, so the stable
`List.insertionSort` computes the same list. -/
def get_discovered_destinations (cache : AnnCache) : List (String × Int) :=
  let results := cache.map (fun p => (p.1, p.2.hops))
  results.insertionSort hopsLe

/-- Link lifecycle events delivered by the transport's callback thread
while `connect` polls (`set_link_established_callback` /
`set_link_closed_callback`). -/
inductive LinkEvent
  | established
  | closedEvt
deriving DecidableEq

/-- Outbound rnsh protocol messages sent on the channel by the session. -/
inductive OutMsg
  | versionMsg
  | executeCommand (rows cols : Nat)
  | streamData (streamId : Nat) (data : List Nat) (eof compressed : Bool)
  | windowSize (rows cols hpix vpix : Nat)
deriving DecidableEq

/-- State of one `RnshSession` object.  `buffer` is the `_output_queue`
contents in FIFO order; an entry `none` is the `None` disconnect sentinel,
`some d` a chunk of output bytes.  `link`/`channel` record whether
`self._link` / `self._channel` are non-`None`; `sent` records the messages
pushed through the channel; `tornDown` records that `self._link.teardown()`
was invoked. -/
structure RnshSession where
  destHashHex : String
  link : Bool
  channel : Bool
  closed : Bool
  connected : Bool
  buffer : List (Option (List Nat))
  rows : Nat
  cols : Nat
  sent : List OutMsg
  tornDown : Bool
deriving DecidableEq

/-- `RnshSession.__init__(destination_hash_hex)`. -/
def RnshSession.mkNew (destHashHex : String) : RnshSession :=
  { destHashHex := destHashHex, link := false, channel := false,
    closed := false, connected := false, buffer := [],
    rows := 24, cols := 80, sent := [], tornDown := false }

/-- `RnshSession._on_link_established`: mark connected, derive the channel,
register message types and the handler, and send the version-announcement
followed by the combined execute-shell request carrying the geometry. -/
def RnshSession.on_link_established (s : RnshSession) : RnshSession :=
  { s with connected := true, channel := true,
           sent := s.sent ++ [OutMsg.versionMsg, OutMsg.executeCommand s.rows s.cols] }

/-- `RnshSession._on_link_closed`: if not already closed, set closed, drop
connected and push the `None` sentinel so a blocked reader wakes. -/
def RnshSession.on_link_closed (s : RnshSession) : RnshSession :=
  if s.closed then s
  else { s with closed := true, connected := false, buffer := s.buffer ++ [none] }

/-- Inbound rnsh protocol messages as dispatched by `_on_message`
(`otherMessage` stands for any isinstance the handler does not test for). -/
inductive RnshMessage
  | streamData (streamId : Nat) (data : List Nat) (eof compressed : Bool)
  | commandExited (returnCode : Int)
  | errorMessage (text : String) (fatal : Bool)
  | otherMessage
deriving DecidableEq

/-- `RnshSession._on_message`: stream data with truthy (non-empty) payload
is appended to the output queue; command-exited closes the session and
pushes the sentinel; a fatal error does the same; anything else is
ignored. -/
def RnshSession.on_message (s : RnshSession) (m : RnshMessage) : RnshSession :=
  match m with
  | .streamData _ d _ _ =>
      if d ≠ [] then { s with buffer := s.buffer ++ [some d] } else s
  | .commandExited _ => { s with closed := true, buffer := s.buffer ++ [none] }
  | .errorMessage _ fatal =>
      if fatal then { s with closed := true, buffer := s.buffer ++ [none] } else s
  | .otherMessage => s

/-- The three-way result of `RnshSession.read_output`: a chunk of bytes,
the empty-bytes timeout result `b""`, or the `None` disconnect value. -/
inductive ReadResult
  | chunk (data : List Nat)
  | empty
  | disconnected
deriving DecidableEq

/-- `RnshSession.read_output(timeout_ms)`.  The queue is modelled by the
list of entries available to the reader within its timeout: head `some d`
is a chunk arriving in time, head `none` the sentinel, and an empty list
the `queue.Empty` timeout path. -/
def RnshSession.read_output (s : RnshSession) : ReadResult × RnshSession :=
  if s.closed ∧ s.buffer = [] then (ReadResult.disconnected, s)
  else
    match s.buffer with
    | [] => if s.closed then (ReadResult.disconnected, s) else (ReadResult.empty, s)
    | some d :: rest => (ReadResult.chunk d, { s with buffer := rest })
    | none :: rest => (ReadResult.disconnected, { s with buffer := rest })

/-- `n + 1` consecutive `read_output` calls with no interleaved messages;
returns the result of the last call and the state after it. -/
def RnshSession.read_iter (s : RnshSession) : Nat → ReadResult × RnshSession
  | 0 => s.read_output
  | n + 1 => RnshSession.read_iter (s.read_output).2 n

/-- `self._link.teardown()`. -/
def RnshSession.teardown (s : RnshSession) : RnshSession := { s with tornDown := true }

/-- Apply the link-lifecycle callback (if any) that fires during one
100 ms poll interval of `connect`'s wait loop. -/
def stepEvent (s : RnshSession) : Option LinkEvent → RnshSession
  | none => s
  | some LinkEvent.established => s.on_link_established
  | some LinkEvent.closedEvt => s.on_link_closed

/-- How `connect`'s wait loop ends: the `while` condition turned false
(success — the code then runs `return True`) or the 30 s timeout fired
(teardown and `RuntimeError`). -/
inductive ConnectOutcome
  | success
  | linkTimeout
deriving DecidableEq

/-- The wait loop of `RnshSession.connect`:
`while not self._connected and not self._closed: sleep(0.1); if elapsed > 30: teardown; raise`.
`n` counts completed 100 ms sleeps, so the idealised elapsed time at the
timeout check after sleep `n + 1` is `(n + 1) / 10` seconds and the strict
`> 30` comparison fires exactly when `n + 1 > 300`.  `ev n` is the callback
event (if any) arriving during sleep number `n + 1`.  `fuel` is an explicit
iteration bound: `none` means the bound was exhausted, and the theorems show
fuel `301` always suffices. -/
def connect_loop (ev : Nat → Option LinkEvent) :
    RnshSession → Nat → Nat → Option (ConnectOutcome × RnshSession)
  | _, _, 0 => none
  | s, n, fuel + 1 =>
    if s.connected || s.closed then some (ConnectOutcome.success, s)
    else
      let s' := stepEvent s (ev n)
      if n + 1 > 300 then some (ConnectOutcome.linkTimeout, s'.teardown)
      else connect_loop ev s' (n + 1) fuel

/-- Failures `connect` can raise (`RuntimeError` in the source, with the
two distinct messages). -/
inductive ConnErr
  | identityUnresolved
  | linkTimeout
deriving DecidableEq

/-- `RnshSession.connect(rows, cols)`: recallFn the destination identity
(`RNS.Identity.recallFn`, passed in as `recallFn`), failing fast when it is
unknown; otherwise build the destination and link, register the callbacks,
and run the bounded wait loop.  Returns the Python return value (or the
raised error) together with the final session state. -/
def RnshSession.connect (recallFn : String → Option Nat) (ev : Nat → Option LinkEvent)
    (rows cols : Nat) (s : RnshSession) : Except ConnErr Bool × RnshSession :=
  match recallFn s.destHashHex with
  | none => (Except.error ConnErr.identityUnresolved, s)
  | some _ =>
    let s1 := { s with rows := rows, cols := cols, link := true }
    match (connect_loop ev s1 0 301).getD (ConnectOutcome.linkTimeout, s1.teardown) with
    | (ConnectOutcome.success, s2) => (Except.ok true, s2)
    | (ConnectOutcome.linkTimeout, s2) => (Except.error ConnErr.linkTimeout, s2)

/-- The module-level `_sessions` dict. -/
abbrev SessionTable := List (String × RnshSession)

/-- Module-level `create_session`: construct the session, `connect` it (a
raise propagates before the table is touched), then store it under
`session_id`. -/
def create_session (recallFn : String → Option Nat) (ev : Nat → Option LinkEvent)
    (sessions : SessionTable) (destHashHex sessionId : String) (rows cols : Nat) :
    Except ConnErr String × SessionTable :=
  let s := RnshSession.mkNew destHashHex
  match RnshSession.connect recallFn ev rows cols s with
  | (Except.error e, _) => (Except.error e, sessions)
  | (Except.ok _, s') => (Except.ok sessionId, dictUpsert sessions sessionId s')

/-- Module-level `read_output(session_id, timeout_ms)`: `None` (here
`ReadResult.disconnected`) for an unknown session, else the session's own
`read_output`. -/
def registry_read_output (sessions : SessionTable) (sessionId : String) :
    ReadResult × SessionTable :=
  match dictLookup sessions sessionId with
  | none => (ReadResult.disconnected, sessions)
  | some s =>
    let r := s.read_output
    (r.1, dictUpsert sessions sessionId r.2)

/-- A session that is closed with an empty queue answers every further
`read_output` with the disconnect value and never changes again. -/
theorem read_closed_empty_iter (s : RnshSession) (hc : s.closed = true)
    (hb : s.buffer = []) :
    ∀ n, (s.read_iter n).1 = ReadResult.disconnected ∧ (s.read_iter n).2 = s := by
  intro n
  induction n generalizing s with
  | zero =>
      constructor <;> simp [RnshSession.read_iter, RnshSession.read_output, hc, hb]
  | succ n ih =>
      have h1 : s.read_output = (ReadResult.disconnected, s) := by
        simp [RnshSession.read_output, hc, hb]
      rw [RnshSession.read_iter, h1]
      exact ih s hc hb

/-- C1: `read_output` has a three-way contract — disconnected (`None`) when
the session is closed with nothing buffered, the buffered chunk when one is
available within the timeout, and the empty result (`b""`, distinct from
both) on timeout with the session still open; after a command-exited
message on a quiescent open session, the next `read_output` returns the
disconnect sentinel and every subsequent call keeps returning disconnected
(the function is total, so no fault is possible). -/
theorem c1_read_output_contract (s : RnshSession) (d : List Nat)
    (rest : List (Option (List Nat))) (rc : Int) :
    (s.closed = true → s.buffer = [] → (s.read_output).1 = ReadResult.disconnected) ∧
    (s.buffer = some d :: rest → (s.read_output).1 = ReadResult.chunk d) ∧
    (s.closed = false → s.buffer = [] → (s.read_output).1 = ReadResult.empty) ∧
    (ReadResult.empty ≠ ReadResult.chunk d ∧ ReadResult.empty ≠ ReadResult.disconnected ∧
      ReadResult.chunk d ≠ ReadResult.disconnected) ∧
    (s.closed = false → s.buffer = [] → ∀ n,
      ((s.on_message (RnshMessage.commandExited rc)).read_iter n).1 =
        ReadResult.disconnected) := by
  refine ⟨?_, ?_, ?_, ⟨by simp, by simp, by simp⟩, ?_⟩
  · intro hc hb
    simp [RnshSession.read_output, hc, hb]
  · intro hb
    simp [RnshSession.read_output, hb]
  · intro hc hb
    simp [RnshSession.read_output, hc, hb]
  · intro hc hb n
    cases n with
    | zero =>
        simp [RnshSession.read_iter, RnshSession.on_message, RnshSession.read_output, hb]
    | succ n =>
        have hs : ((s.on_message (RnshMessage.commandExited rc)).read_output).2 =
            { s with closed := true, buffer := [] } := by
          simp [RnshSession.on_message, RnshSession.read_output, hb]
        rw [RnshSession.read_iter, hs]
        exact (read_closed_empty_iter _ rfl rfl n).1

/-- Witness for C1 at a concrete session: a fresh (open, quiescent) session
that receives command-exited answers the second subsequent read with
disconnected. -/
theorem c1_read_output_contract_witness :
    (((RnshSession.mkNew hexA).on_message (RnshMessage.commandExited 0)).read_iter 1).1 =
      ReadResult.disconnected :=
  (c1_read_output_contract (RnshSession.mkNew hexA) [] [] 0).2.2.2.2 rfl rfl 1

/-- C2: `_on_message` dispatch — non-empty stream data appends exactly its
payload, empty stream data appends nothing, command-exited marks the
session closed and appends the sentinel, a fatal error does exactly the
same, and a non-fatal error changes nothing. -/
theorem c2_on_message_dispatch (s : RnshSession) (sid : Nat) (d : List Nat)
    (eof comp : Bool) (rc : Int) (txt : String) :
    (d ≠ [] → s.on_message (RnshMessage.streamData sid d eof comp) =
        { s with buffer := s.buffer ++ [some d] }) ∧
    (s.on_message (RnshMessage.streamData sid [] eof comp) = s) ∧
    (s.on_message (RnshMessage.commandExited rc) =
        { s with closed := true, buffer := s.buffer ++ [none] }) ∧
    (s.on_message (RnshMessage.errorMessage txt true) =
        s.on_message (RnshMessage.commandExited rc)) ∧
    (s.on_message (RnshMessage.errorMessage txt false) = s) := by
  refine ⟨fun h => ?_, ?_, ?_, ?_, ?_⟩
  · simp [RnshSession.on_message, h]
  all_goals simp [RnshSession.on_message]

/-- Witness for C2: a concrete two-byte chunk is appended verbatim. -/
theorem c2_on_message_dispatch_witness :
    (RnshSession.mkNew hexA).on_message (RnshMessage.streamData 0 [1, 2] false false) =
      { RnshSession.mkNew hexA with
          buffer := (RnshSession.mkNew hexA).buffer ++ [some [1, 2]] } :=
  (c2_on_message_dispatch (RnshSession.mkNew hexA) 0 [1, 2] false false 0 errText).1
    (by decide)

/-- `is_connected` property of a session. -/
def RnshSession.is_connected (s : RnshSession) : Bool := s.connected && !s.closed

/-- The wait loop never exhausts fuel `301 - n` when started at poll
counter `n ≤ 300`: it always exits through one of its two branches. -/
theorem connect_loop_isSome (ev : Nat → Option LinkEvent) :
    ∀ (fuel : Nat) (s : RnshSession) (n : Nat), n ≤ 300 → 301 - n ≤ fuel →
      (connect_loop ev s n fuel).isSome = true := by
  intro fuel
  induction fuel with
  | zero =>
      intro s n hn hf
      exfalso
      omega
  | succ fuel ih =>
      intro s n hn hf
      rw [connect_loop]
      split
      · rfl
      · split
        · rfl
        · rename_i hgt
          exact ih _ (n + 1) (by omega) (by omega)

/-- When no callback ever fires, the wait loop runs to its timeout branch
and ends with the link torn down. -/
theorem connect_loop_timeout (ev : Nat → Option LinkEvent)
    (hev : ∀ k, ev k = none) :
    ∀ (fuel : Nat) (s : RnshSession) (n : Nat), s.connected = false → s.closed = false →
      n ≤ 300 → n + fuel = 301 →
      connect_loop ev s n fuel = some (ConnectOutcome.linkTimeout, s.teardown) := by
  intro fuel
  induction fuel with
  | zero =>
      intro s n hc hcl hn hnf
      exfalso
      omega
  | succ fuel ih =>
      intro s n hc hcl hn hnf
      rw [connect_loop]
      rw [hc, hcl]
      simp only [Bool.or_self, Bool.false_eq_true, if_false, hev n, stepEvent]
      by_cases hgt : n + 1 > 300
      · simp [hgt]
      · rw [if_neg hgt]
        exact ih s (n + 1) hc hcl (by omega) (by omega)

/-- C3: `connect`'s link-establishment wait is a bounded poll loop — with
the strict `elapsed > 30` check at 100 ms per poll it always exits within
301 iterations (fuel 301 is never exhausted), and when neither the
established nor the closed callback ever fires it ends in the timeout
branch, tearing the link down and raising the link-timeout error. -/
theorem c3_connect_wait_bounded (ev : Nat → Option LinkEvent) (s : RnshSession) :
    (connect_loop ev s 0 301).isSome = true ∧
    ((∀ k, ev k = none) → s.connected = false → s.closed = false →
      connect_loop ev s 0 301 = some (ConnectOutcome.linkTimeout, s.teardown)) := by
  constructor
  · exact connect_loop_isSome ev 301 s 0 (by omega) (by omega)
  · intro hev hc hcl
    exact connect_loop_timeout ev hev 301 s 0 hc hcl (by omega) (by omega)

/-- Witness for C3 on a concrete fresh session with a silent transport. -/
theorem c3_connect_wait_bounded_witness :
    connect_loop (fun _ => none) (RnshSession.mkNew hexA) 0 301 =
      some (ConnectOutcome.linkTimeout, (RnshSession.mkNew hexA).teardown) :=
  (c3_connect_wait_bounded (fun _ => none) (RnshSession.mkNew hexA)).2
    (fun _ => rfl) rfl rfl

/-- C4: when the destination identity cannot be recalled, `connect` fails
immediately with the identity-unresolved error before any link is built
(the session still has no link), and `create_session` propagates the raise
without touching the session table. -/
theorem c4_identity_unresolved (recallFn : String → Option Nat)
    (ev : Nat → Option LinkEvent) (sessions : SessionTable)
    (dest sid : String) (rows cols : Nat) (h : recallFn dest = none) :
    create_session recallFn ev sessions dest sid rows cols =
      (Except.error ConnErr.identityUnresolved, sessions) ∧
    ((RnshSession.mkNew dest).connect recallFn ev rows cols).2.link = false := by
  constructor
  · simp [create_session, RnshSession.connect, RnshSession.mkNew, h]
  · simp [RnshSession.connect, h, RnshSession.mkNew]

/-- Witness for C4 with a recall that knows no identity. -/
theorem c4_identity_unresolved_witness :
    create_session (fun _ => none) (fun _ => none) [] hexA hexB 24 80 =
      (Except.error ConnErr.identityUnresolved, []) :=
  (c4_identity_unresolved (fun _ => none) (fun _ => none) [] hexA hexB 24 80 rfl).1

/-- If the closed callback fires at poll `k` (nothing earlier) while the
loop still has at least `k + 2` fuel and `k` is before the timeout, the
loop exits through its success branch with the session closed. -/
theorem connect_loop_early_close (ev : Nat → Option LinkEvent) :
    ∀ (k n : Nat) (s : RnshSession) (fuel : Nat), s.connected = false → s.closed = false →
      (∀ j, j < k → ev (n + j) = none) → ev (n + k) = some LinkEvent.closedEvt →
      n + k ≤ 299 → k + 2 ≤ fuel →
      connect_loop ev s n fuel = some (ConnectOutcome.success, s.on_link_closed) := by
  intro k
  induction k with
  | zero =>
      intro n s fuel hc hcl hnone hk hle hfuel
      obtain ⟨f, rfl⟩ : ∃ f, fuel = f + 2 := ⟨fuel - 2, by omega⟩
      rw [connect_loop]
      rw [hc, hcl]
      have hk0 : ev n = some LinkEvent.closedEvt := by simpa using hk
      simp only [Bool.or_self, Bool.false_eq_true, if_false, hk0, stepEvent]
      rw [if_neg (by omega : ¬ n + 1 > 300)]
      rw [connect_loop]
      have hcl' : s.on_link_closed.closed = true := by
        simp [RnshSession.on_link_closed, hcl]
      rw [hcl']
      simp
  | succ k ih =>
      intro n s fuel hc hcl hnone hk hle hfuel
      obtain ⟨f, rfl⟩ : ∃ f, fuel = f + 1 := ⟨fuel - 1, by omega⟩
      rw [connect_loop]
      rw [hc, hcl]
      have h0 : ev n = none := by simpa using hnone 0 (by omega)
      simp only [Bool.or_self, Bool.false_eq_true, if_false, h0, stepEvent]
      rw [if_neg (by omega : ¬ n + 1 > 300)]
      refine ih (n + 1) s f hc hcl (fun j hj => ?_) ?_ (by omega) (by omega)
      · have := hnone (j + 1) (by omega)
        simpa [Nat.add_assoc, Nat.add_comm 1 j] using this
      · have : n + 1 + k = n + (k + 1) := by omega
        rw [this]
        exact hk

/-- C9: when the closed callback fires before the established callback and
before the timeout, `connect` still leaves its wait loop through the
success branch and returns `True`, with the session already closed and not
connected — early closure is indistinguishable from establishment. -/
theorem c9_early_close_returns_true (recallFn : String → Option Nat)
    (ev : Nat → Option LinkEvent) (dest : String) (ident rows cols k : Nat)
    (hr : recallFn dest = some ident) (hk : k ≤ 299)
    (hnone : ∀ j, j < k → ev j = none) (hcl : ev k = some LinkEvent.closedEvt) :
    ((RnshSession.mkNew dest).connect recallFn ev rows cols).1 = Except.ok true ∧
    ((RnshSession.mkNew dest).connect recallFn ev rows cols).2.closed = true ∧
    ((RnshSession.mkNew dest).connect recallFn ev rows cols).2.is_connected = false := by
  have hloop := connect_loop_early_close ev k 0
    { destHashHex := dest, link := true, channel := false, closed := false,
      connected := false, buffer := [], rows := rows, cols := cols, sent := [],
      tornDown := false } 301
    rfl rfl (fun j hj => by simpa using hnone j hj) (by simpa using hcl)
    (by omega) (by omega)
  refine ⟨?_, ?_, ?_⟩ <;>
    simp [RnshSession.connect, hr, RnshSession.mkNew, hloop,
      RnshSession.on_link_closed, RnshSession.is_connected]

/-- Witness for C9: the closed callback fires during the very first poll. -/
theorem c9_early_close_returns_true_witness :
    ((RnshSession.mkNew hexA).connect (fun _ => some 0)
        (fun j => if j = 0 then some LinkEvent.closedEvt else none) 24 80).1 =
      Except.ok true :=
  (c9_early_close_returns_true (fun _ => some 0)
      (fun j => if j = 0 then some LinkEvent.closedEvt else none) hexA 0 24 80 0
      rfl (by omega) (fun j hj => absurd hj (Nat.not_lt_zero j)) rfl).1

/-- C10: the registry-level `read_output` answers an unknown session
identifier with the very same disconnected value (`None`) that a closed,
drained session's own `read_output` returns, so a poller cannot tell the
two apart. -/
theorem c10_unknown_session_disconnected (sessions : SessionTable) (sid : String)
    (s : RnshSession) :
    (dictLookup sessions sid = none →
      (registry_read_output sessions sid).1 = ReadResult.disconnected) ∧
    (s.closed = true → s.buffer = [] → (s.read_output).1 = ReadResult.disconnected) := by
  constructor
  · intro h
    simp [registry_read_output, h]
  · intro hc hb
    simp [RnshSession.read_output, hc, hb]

/-- Witness for C10 on an empty table and a concrete closed session. -/
theorem c10_unknown_session_disconnected_witness :
    (registry_read_output [] hexA).1 = ReadResult.disconnected ∧
    (({ RnshSession.mkNew hexB with closed := true }).read_output).1 =
      ReadResult.disconnected :=
  ⟨(c10_unknown_session_disconnected [] hexA (RnshSession.mkNew hexB)).1 rfl,
   (c10_unknown_session_disconnected [] hexA
      { RnshSession.mkNew hexB with closed := true }).2 rfl rfl⟩

/-- No unknown-hop entry (negative hops) is followed by a known-hop one:
the "unknowns last" reading of the spec. -/
def unknownsLast (l : List (String × Int)) : Prop :=
  List.Pairwise (fun a b => a.2 < 0 → b.2 < 0) l

instance (l : List (String × Int)) : Decidable (unknownsLast l) :=
  inferInstanceAs (Decidable (List.Pairwise _ l))

/-- Looking a key up after an upsert sees the new value on that key and is
untouched elsewhere. -/
theorem dictLookup_upsert {κ α : Type} [DecidableEq κ] (c : List (κ × α)) (k e : κ) (v : α) :
    dictLookup (dictUpsert c k v) e = if k = e then some v else dictLookup c e := by
  induction c with
  | nil => simp [dictUpsert, dictLookup]
  | cons hd tl ih =>
      obtain ⟨k', w⟩ := hd
      by_cases hk : k' = k
      · subst hk
        by_cases he : k' = e
        · subst he
          simp [dictUpsert, dictLookup]
        · simp [dictUpsert, dictLookup, he]
      · by_cases he : k' = e
        · subst he
          have hke : ¬ k = k' := fun h => hk h.symm
          simp [dictUpsert, dictLookup, hk, hke]
        · simp [dictUpsert, dictLookup, hk, he, ih]

/-- Upserting the same key/value twice is the same as once. -/
theorem dictUpsert_idem {κ α : Type} [DecidableEq κ] (c : List (κ × α)) (k : κ) (v : α) :
    dictUpsert (dictUpsert c k v) k v = dictUpsert c k v := by
  induction c with
  | nil => simp [dictUpsert]
  | cons hd tl ih =>
      obtain ⟨k', w⟩ := hd
      by_cases hk : k' = k
      · subst hk
        simp [dictUpsert]
      · simp [dictUpsert, hk, ih]

/-- The most recent announce in a trace for a given destination. -/
def lastAnnounceFor (e : String) : List Announce → Option Announce
  | [] => none
  | a :: rest =>
    match lastAnnounceFor e rest with
    | some b => some b
    | none => if a.destHex = e then some a else none

/-- Folding a trace of announces into any cache: each key ends up holding
exactly the encoding of its most recent announce, or its old value when the
trace never mentions it. -/
theorem dictLookup_foldl_announces (evs : List Announce) :
    ∀ (c : AnnCache) (e : String),
      dictLookup (evs.foldl received_announce c) e =
        match lastAnnounceFor e evs with
        | some a => some (encodeAnnounce a)
        | none => dictLookup c e := by
  induction evs with
  | nil =>
      intro c e
      simp [lastAnnounceFor]
  | cons a rest ih =>
      intro c e
      simp only [List.foldl_cons]
      rw [ih]
      cases hlast : lastAnnounceFor e rest with
      | some b => simp [lastAnnounceFor, hlast]
      | none =>
          simp only [lastAnnounceFor, hlast, received_announce, dictLookup_upsert]
          split_ifs with h <;> rfl

/-- A trace that never names `e` has no last announce for `e`. -/
theorem lastAnnounceFor_eq_none (e : String) (evs : List Announce)
    (h : ∀ a ∈ evs, a.destHex ≠ e) : lastAnnounceFor e evs = none := by
  induction evs with
  | nil => rfl
  | cons a rest ih =>
      simp only [lastAnnounceFor]
      rw [ih (fun b hb => h b (List.mem_cons_of_mem a hb))]
      simp [h a (List.mem_cons_self a rest)]

/-- A key that `dictLookup` misses is not among the keys. -/
theorem not_mem_keys_of_lookup_none {κ α : Type} [DecidableEq κ] :
    ∀ (c : List (κ × α)) (e : κ), dictLookup c e = none → e ∉ c.map Prod.fst := by
  intro c
  induction c with
  | nil => simp
  | cons hd tl ih =>
      obtain ⟨k, w⟩ := hd
      intro e h
      simp only [dictLookup] at h
      by_cases hk : k = e
      · simp [hk] at h
      · simp only [List.map_cons, List.mem_cons]
        push_neg
        exact ⟨fun he => hk he.symm, ih e (by simpa [hk] using h)⟩

/-- The hashes listed by `get_discovered_destinations` are exactly the keys
of the announce cache. -/
theorem mem_keys_get_discovered (cache : AnnCache) (e : String) :
    e ∈ (get_discovered_destinations cache).map Prod.fst ↔ e ∈ cache.map Prod.fst := by
  have hp := (List.perm_insertionSort hopsLe
      (cache.map (fun p => (p.1, p.2.hops)))).map Prod.fst
  unfold get_discovered_destinations
  rw [hp.mem_iff]
  simp [List.mem_map]

/-- C7 (confirmed): the cache holds exactly what was announced — a key's
entry is the encoding of its most recent announce, a never-announced hash
does not appear in the discovery listing (whose entries are a permutation
of the cache's), and upserting the same announce twice equals upserting it
once. -/
theorem c7_cache_exact (evs : List Announce) (e : String) (c : AnnCache) (a : Announce) :
    (dictLookup (runAnnounces evs) e =
      (match lastAnnounceFor e evs with
       | some b => some (encodeAnnounce b)
       | none => none)) ∧
    ((∀ b ∈ evs, b.destHex ≠ e) →
      e ∉ (get_discovered_destinations (runAnnounces evs)).map Prod.fst) ∧
    (List.Perm (get_discovered_destinations (runAnnounces evs))
      ((runAnnounces evs).map (fun p => (p.1, p.2.hops)))) ∧
    (received_announce (received_announce c a) a = received_announce c a) := by
  refine ⟨?_, ?_, ?_, ?_⟩
  · rw [runAnnounces, dictLookup_foldl_announces]
    cases lastAnnounceFor e evs <;> rfl
  · intro h
    have hnone : dictLookup (runAnnounces evs) e = none := by
      rw [runAnnounces, dictLookup_foldl_announces, lastAnnounceFor_eq_none e evs h]
      rfl
    rw [mem_keys_get_discovered]
    exact not_mem_keys_of_lookup_none _ e hnone
  · exact List.perm_insertionSort hopsLe _
  · simp [received_announce, dictUpsert_idem]

/-- Witness for C7: two announces for `hexA`; `hexB` is absent from the
listing. -/
theorem c7_cache_exact_witness :
    hexB ∉ (get_discovered_destinations (runAnnounces
      [⟨hexA, some 2, 5⟩, ⟨hexA, none, 6⟩])).map Prod.fst :=
  (c7_cache_exact [⟨hexA, some 2, 5⟩, ⟨hexA, none, 6⟩] hexB [] ⟨hexB, some 1, 7⟩).2.1
    (by decide)

/-- A discovery cache refuting C6 as stated: `hexA` has a known hop count
of 1000, `hexB` an unknown one (stored as -1, sort key 999). -/
def cacheBad : AnnCache :=
  [(hexA, { hops := 1000, timestamp := 5 }), (hexB, { hops := -1, timestamp := 6 })]

/-- C6 counterexample: with a known hop count of 1000 in the cache, the
unknown-hop entry (sort key 999) is listed BEFORE the known-hop entry, so
the listing does not place every unknown-hop entry after every known-hop
entry. -/
theorem c6_counterexample : ¬ unknownsLast (get_discovered_destinations cacheBad) := by
  decide

/-- C6 (amended): the listing is always sorted ascending by the sort key
(hop count, with unknown mapped to 999); whenever every known hop count in
the cache is below 999 — always true for real mesh routes — this places
all unknown-hop entries after all known-hop ones. -/
theorem c6_sorted_amended (cache : AnnCache)
    (hknown : ∀ p ∈ cache, 0 ≤ p.2.hops → p.2.hops < 999) :
    List.Sorted hopsLe (get_discovered_destinations cache) ∧
    unknownsLast (get_discovered_destinations cache) := by
  have hsorted : List.Sorted hopsLe (get_discovered_destinations cache) :=
    List.sorted_insertionSort hopsLe _
  refine ⟨hsorted, ?_⟩
  have hperm := List.perm_insertionSort hopsLe (cache.map (fun p => (p.1, p.2.hops)))
  refine List.Pairwise.imp_of_mem ?_ hsorted
  intro a b ha hbmem hle hneg
  have hb' : b ∈ cache.map (fun p => (p.1, p.2.hops)) := hperm.mem_iff.mp hbmem
  obtain ⟨p, hp, rfl⟩ := List.mem_map.mp hb'
  by_contra h0
  push_neg at h0
  have hlt : p.2.hops < 999 := hknown p hp h0
  have hle' : sortKey a.2 ≤ sortKey p.2.hops := hle
  have h999 : sortKey a.2 = 999 := by
    simp only [sortKey, if_neg (by omega : ¬ (0 : Int) ≤ a.2)]
  have hkb : sortKey p.2.hops = p.2.hops := by
    simp only [sortKey, if_pos h0]
  omega

/-- Witness for C6 (amended) on a concrete cache with hop counts 3, -1, 1. -/
theorem c6_sorted_amended_witness :
    List.Sorted hopsLe (get_discovered_destinations
      [(hexA, { hops := 3, timestamp := 5 }), (hexB, { hops := -1, timestamp := 6 }),
       (boomMsg, { hops := 1, timestamp := 7 })]) ∧
    unknownsLast (get_discovered_destinations
      [(hexA, { hops := 3, timestamp := 5 }), (hexB, { hops := -1, timestamp := 6 }),
       (boomMsg, { hops := 1, timestamp := 7 })]) :=
  c6_sorted_amended
    [(hexA, { hops := 3, timestamp := 5 }), (hexB, { hops := -1, timestamp := 6 }),
     (boomMsg, { hops := 1, timestamp := 7 })] (by decide)

/-- The two transport operating modes tracked in `_init_mode`
(`"sideband"` = shared-instance client, `"gateway"` = direct TCP client). -/
inductive RnsMode
  | sideband
  | gateway
deriving DecidableEq

/-- The module-level bootstrap globals: `_reticulum` (is RNS running),
`_init_mode`, `_identity` (its hex hash), `_gateways` (the Bool is whether
an explicit `TCPClientInterface` object was attached — `False` mirrors the
`None` stored when the interface comes from the written config), and
`_announce_handler`. -/
structure GState where
  reticulum : Bool
  initMode : Option RnsMode
  identity : Option String
  gateways : List ((String × Nat) × Bool)
  announceHandlerRegistered : Bool
deriving DecidableEq

/-- Module state before the first bootstrap call. -/
def GState.fresh : GState :=
  { reticulum := false, initMode := none, identity := none,
    gateways := [], announceHandlerRegistered := false }

/-- `_is_sideband_target(host, port)`:
`host in ("127.0.0.1", "localhost", "::1") and port == 37428`. -/
def is_sideband_target (host : String) (port : Nat) : Bool :=
  sidebandHosts.contains host && port == 37428

/-- `_ensure_gateway(host, port)`: no-op when the (host, port) key is
already present; otherwise construct a `TCPClientInterface` and attach it
via `_reticulum._add_interface` — both external calls, modelled by
`attach`, and NOT wrapped in any try/except in the source, so a raise
propagates — then record the interface in `_gateways`. -/
def ensure_gateway (attach : String → Nat → Except String Unit)
    (host : String) (port : Nat) (g : GState) : Except String GState :=
  if (dictLookup g.gateways (host, port)).isSome then Except.ok g
  else
    match attach host port with
    | Except.error e => Except.error e
    | Except.ok _ =>
        Except.ok { g with gateways := dictUpsert g.gateways (host, port) true }

/-- What a bootstrap call returns: the identity hex hash, plus whether the
cannot-switch-to-sideband warning was printed on the way. -/
structure BootResult where
  identityHash : String
  warnedModeConflict : Bool
deriving DecidableEq

/-- Load-or-create of the persistent `haven_identity` file: `disk` is the
hash stored on disk (if the file exists), `freshId` the hash a newly
generated identity would have. -/
def load_or_create_identity (disk : Option String) (freshId : String) : String :=
  match disk with
  | some h => h
  | none => freshId

/-- `init_reticulum(config_dir, host, port)`.  When RNS is already running:
a non-sideband target attaches a direct gateway (a raise from attachment
propagates), a sideband target while in gateway mode only logs the
mode-conflict warning; then the existing identity is returned, or loaded or
created if absent.  On first call: write the config for the chosen mode
(the file contents are not modelled), start RNS (for a gateway target the
interface comes from the config, recorded with `False`/`None`), register
the announce handler, and load or create the identity. -/
def init_reticulum (attach : String → Nat → Except String Unit)
    (disk : Option String) (freshId : String)
    (host : String) (port : Nat) (g : GState) : Except String (BootResult × GState) :=
  let sidebandMode := is_sideband_target host port
  if g.reticulum then
    match (if sidebandMode then
             (if g.initMode = some RnsMode.gateway then Except.ok (true, g)
              else Except.ok (false, g))
           else
             (ensure_gateway attach host port g).map (fun g' => (false, g')) :
           Except String (Bool × GState)) with
    | Except.error e => Except.error e
    | Except.ok (warned, g1) =>
      match g1.identity with
      | some h => Except.ok ({ identityHash := h, warnedModeConflict := warned }, g1)
      | none =>
        let h := load_or_create_identity disk freshId
        Except.ok ({ identityHash := h, warnedModeConflict := warned },
                   { g1 with identity := some h })
  else
    let mode := if sidebandMode then RnsMode.sideband else RnsMode.gateway
    let g1 : GState :=
      { g with reticulum := true, initMode := some mode,
               gateways := if sidebandMode then g.gateways
                           else dictUpsert g.gateways (host, port) false,
               announceHandlerRegistered := true }
    let h := load_or_create_identity disk freshId
    Except.ok ({ identityHash := h, warnedModeConflict := false },
               { g1 with identity := some h })

/-- C5: once bootstrapped in direct-gateway mode, a second bootstrap call
aimed at the shared-instance endpoint is rejected with only a warning: the
call succeeds, the module state (mode included) is completely unchanged,
and the identity hash returned equals the one from the first call.  The
second conjunct replays the spec's concrete two-call scenario
(10.0.0.5:4242 then 127.0.0.1:37428). -/
theorem c5_mode_conflict_nonfatal (attach attach2 : String → Nat → Except String Unit)
    (disk disk2 : Option String) (freshId freshId2 : String) (g : GState) (h : String) :
    (g.reticulum = true → g.initMode = some RnsMode.gateway → g.identity = some h →
      init_reticulum attach2 disk2 freshId2 sbHost 37428 g =
        Except.ok ({ identityHash := h, warnedModeConflict := true }, g)) ∧
    (∀ r1 g1, init_reticulum attach disk freshId gwHost 4242 GState.fresh =
        Except.ok (r1, g1) →
      init_reticulum attach2 disk2 freshId2 sbHost 37428 g1 =
        Except.ok ({ identityHash := r1.identityHash, warnedModeConflict := true }, g1)) := by
  have hsb : is_sideband_target sbHost 37428 = true := rfl
  have hgw : is_sideband_target gwHost 4242 = false := rfl
  have hgen : ∀ (g' : GState) (h' : String), g'.reticulum = true →
      g'.initMode = some RnsMode.gateway → g'.identity = some h' →
      init_reticulum attach2 disk2 freshId2 sbHost 37428 g' =
        Except.ok ({ identityHash := h', warnedModeConflict := true }, g') := by
    intro g' h' hret hmode hid
    simp [init_reticulum, hsb, hret, hmode, hid]
  constructor
  · exact hgen g h
  · intro r1 g1 h1
    have hfirst : init_reticulum attach disk freshId gwHost 4242 GState.fresh =
        Except.ok ({ identityHash := load_or_create_identity disk freshId,
                     warnedModeConflict := false },
                   { reticulum := true, initMode := some RnsMode.gateway,
                     identity := some (load_or_create_identity disk freshId),
                     gateways := [((gwHost, 4242), false)],
                     announceHandlerRegistered := true }) := by
      simp [init_reticulum, hgw, GState.fresh, dictUpsert]
    rw [hfirst] at h1
    simp only [Except.ok.injEq, Prod.mk.injEq] at h1
    obtain ⟨hr1, hg1⟩ := h1
    subst hr1
    subst hg1
    exact hgen _ _ rfl rfl rfl

/-- Witness for C5 at a concrete gateway-mode state. -/
theorem c5_mode_conflict_nonfatal_witness :
    init_reticulum (fun _ _ => Except.ok ()) none hexB sbHost 37428
      { reticulum := true, initMode := some RnsMode.gateway, identity := some hexA,
        gateways := [((gwHost, 4242), false)], announceHandlerRegistered := true } =
      Except.ok ({ identityHash := hexA, warnedModeConflict := true },
        { reticulum := true, initMode := some RnsMode.gateway, identity := some hexA,
          gateways := [((gwHost, 4242), false)], announceHandlerRegistered := true }) :=
  (c5_mode_conflict_nonfatal (fun _ _ => Except.ok ()) (fun _ _ => Except.ok ())
      none none hexB hexB
      { reticulum := true, initMode := some RnsMode.gateway, identity := some hexA,
        gateways := [((gwHost, 4242), false)], announceHandlerRegistered := true }
      hexA).1 rfl rfl rfl

/-- C8 counterexample: for a (host, port) not yet attached and a
construction/attachment that raises, `_ensure_gateway` propagates the
exception — the call does NOT return normally, because the source wraps
`TCPClientInterface(...)` and `_add_interface(...)` in no try/except. -/
theorem c8_counterexample :
    ensure_gateway (fun _ _ => Except.error boomMsg) gwHost 4242
      { reticulum := true, initMode := some RnsMode.gateway, identity := some hexA,
        gateways := [], announceHandlerRegistered := true } =
      Except.error boomMsg := rfl

/-- C8 (amended): `_ensure_gateway` is a no-op returning normally when the
gateway is already present; for a new gateway it returns normally exactly
when construction and attachment succeed (recording the interface), and a
failure raised while constructing or attaching the interface propagates to
the caller rather than being reduced to a warning. -/
theorem c8_gateway_attach_propagates (attach : String → Nat → Except String Unit)
    (host : String) (port : Nat) (g : GState) (e : String) :
    ((dictLookup g.gateways (host, port)).isSome = true →
      ensure_gateway attach host port g = Except.ok g) ∧
    (dictLookup g.gateways (host, port) = none → attach host port = Except.error e →
      ensure_gateway attach host port g = Except.error e) ∧
    (dictLookup g.gateways (host, port) = none → attach host port = Except.ok () →
      ensure_gateway attach host port g =
        Except.ok { g with gateways := dictUpsert g.gateways (host, port) true }) := by
  refine ⟨?_, ?_, ?_⟩
  · intro h1
    simp [ensure_gateway, h1]
  · intro h1 h2
    simp [ensure_gateway, h1, h2]
  · intro h1 h2
    simp [ensure_gateway, h1, h2]

/-- Witness for C8 (amended): successful attachment of a new gateway. -/
theorem c8_gateway_attach_propagates_witness :
    ensure_gateway (fun _ _ => Except.ok ()) gwHost 4242
      { reticulum := true, initMode := some RnsMode.gateway, identity := some hexA,
        gateways := [], announceHandlerRegistered := true } =
      Except.ok
        ({ reticulum := true, initMode := some RnsMode.gateway,
           identity := some hexA, gateways := [((gwHost, 4242), true)],
           announceHandlerRegistered := true } : GState) :=
  (c8_gateway_attach_propagates (fun _ _ => Except.ok ()) gwHost 4242
      { reticulum := true, initMode := some RnsMode.gateway, identity := some hexA,
        gateways := [], announceHandlerRegistered := true } boomMsg).2.2 rfl rfl

end Haven
